import Mathlib

/-!
Shallow embedding of the machine lifecycle orchestrator and the data
transfer orchestrator of app.py, together with theorems settling the
claims about them.  Each definition is translated from the source file
src/app.py; line numbers in doc comments refer to that file.
-/

namespace Ada2

/-- The MachineState enum of app.py (lines 647-652). -/
inductive MachineState where
  | PROVISIONING
  | READY
  | FAILED
  | DELETING
  | DELETED
deriving DecidableEq

/-- The DataTransferJobState enum of app.py (lines 395-399). -/
inductive DataTransferJobState where
  | RUNNING
  | DONE
  | FAILED
  | HIDDEN
deriving DecidableEq

/-- The columns of the Machine model relevant to the orchestrator
(app.py lines 655-684): display name, network address, state, owner. -/
structure MachineRow where
  name : String
  ip : String
  state : MachineState
  ownerId : Nat
deriving DecidableEq

/-- The requesting authenticated user as seen by the handlers:
its id and the is_admin flag. -/
structure Requester where
  id : Nat
  isAdmin : Bool
deriving DecidableEq

/-- Outcome of a synchronous Flask handler: abort(404), abort(403),
or a normal response. -/
inductive HandlerResponse where
  | notFound
  | forbidden
  | ok
deriving DecidableEq

/-- The Machine row constructed by the new_machine handler
(app.py lines 1763-1772): ip is the empty string and state is
PROVISIONING. -/
def newMachineRow (name : String) (ownerId : Nat) : MachineRow :=
  { name := name, ip := "", state := MachineState.PROVISIONING, ownerId := ownerId }

/-- The body of the startup recovery pass clean_up_db for one Machine row
(app.py lines 2583-2587): a row in PROVISIONING is set to FAILED, every
other row is left untouched. -/
def clean_up_db_machine (m : MachineRow) : MachineRow :=
  if m.state = MachineState.PROVISIONING then
    { m with state := MachineState.FAILED }
  else
    m

/-- The clean_up_db loop over all Machine rows (app.py lines 2583-2587). -/
def clean_up_db_machines (ms : List MachineRow) : List MachineRow :=
  ms.map clean_up_db_machine

/-- The columns of the DataTransferJob model relevant to the orchestrator
(app.py lines 402-425): state, owning user id, and the mapped column
finish_date, whose default is the creation time.  The field finish_time
models the plain Python attribute assigned by start_data_transfer at
line 1682; it is not a mapped column of the model, so it is never
persisted, and it is distinct from the finish_date column. -/
structure JobRow where
  state : DataTransferJobState
  userId : Nat
  finish_date : Nat
  finish_time : Option Nat
deriving DecidableEq

/-- A DataTransferJob row as created by the data handler
(app.py lines 1606-1614): state RUNNING, finish_date filled by its
column default, the creation time (line 415). -/
def newJobRow (creationTime : Nat) (userId : Nat) : JobRow :=
  { state := DataTransferJobState.RUNNING, userId := userId,
    finish_date := creationTime, finish_time := none }

/-- The body of the clean_up_db loop for one DataTransferJob row
(app.py lines 2588-2591): a RUNNING job is set to FAILED, every other
job is left untouched. -/
def clean_up_db_job (j : JobRow) : JobRow :=
  if j.state = DataTransferJobState.RUNNING then
    { j with state := DataTransferJobState.FAILED }
  else
    j

/-- The tail of the start_data_transfer thread (app.py lines 1675-1687):
do_rsync returns a boolean result (modelled by rsyncOk); the code then
assigns the attribute finish_time (not the mapped column finish_date)
and sets state DONE on success, FAILED otherwise, and commits. -/
def start_data_transfer (now : Nat) (rsyncOk : Bool) (j : JobRow) : JobRow :=
  { j with
      finish_time := some now,
      state := if rsyncOk then DataTransferJobState.DONE
               else DataTransferJobState.FAILED }

/-- The stop_machine handler from the point where the machine row has
been found (app.py lines 1805-1822): abort(403) unless the requester is
admin or the owner; the membership test of the state in
[PROVISIONING, DELETED, DELETING] at lines 1810-1817 only emits a log
warning; the state is then set to DELETING unconditionally. -/
def stop_machine_row (r : Requester) (m : MachineRow) : Except HandlerResponse MachineRow :=
  if ¬ r.isAdmin = true ∧ ¬ r.id = m.ownerId then
    Except.error HandlerResponse.forbidden
  else
    Except.ok { m with state := MachineState.DELETING }

/-- The full stop_machine handler (app.py lines 1790-1832) acting on a
table of Machine rows keyed by id: abort(404) when the machine_id form
field is missing or the row is not found, abort(403) on the ownership
check, otherwise commit the row with state DELETING. -/
def stop_machine (r : Requester) (machineIdForm : Option Nat)
    (db : List (Nat × MachineRow)) : HandlerResponse × List (Nat × MachineRow) :=
  match machineIdForm with
  | none => (HandlerResponse.notFound, db)
  | some mid =>
    match db.find? (fun p => p.fst == mid) with
    | none => (HandlerResponse.notFound, db)
    | some p =>
      match stop_machine_row r p.snd with
      | Except.error e => (e, db)
      | Except.ok m2 =>
        (HandlerResponse.ok,
         db.map (fun q => if q.fst == mid then (q.fst, m2) else q))

/-- The transition diagram of section 4.1, written from the words of the
spec for comparison with the code: the six edges
PROVISIONING to READY, PROVISIONING to FAILED, READY to DELETING,
FAILED to DELETING, DELETING to DELETED, DELETING to FAILED. -/
def specEdge : MachineState → MachineState → Bool
  | MachineState.PROVISIONING, MachineState.READY => true
  | MachineState.PROVISIONING, MachineState.FAILED => true
  | MachineState.READY, MachineState.DELETING => true
  | MachineState.FAILED, MachineState.DELETING => true
  | MachineState.DELETING, MachineState.DELETED => true
  | MachineState.DELETING, MachineState.FAILED => true
  | _, _ => false

/-- CPU period used by docker_start_container (app.py line 2216). -/
def docker_cpu_period : Nat := 100000

/-- CPU quota computed by docker_start_container (app.py line 2217):
the period times the cpu_limit_cores of the template. -/
def docker_cpu_quota (cpu_limit_cores : Nat) : Nat :=
  docker_cpu_period * cpu_limit_cores

/-- Memory limit string computed by docker_start_container
(app.py line 2218): the memory_limit_gb of the template times 1024,
with the suffix m. -/
def docker_mem_limit (memory_limit_gb : Nat) : String :=
  toString (memory_limit_gb * 1024) ++ "m"

/-- The dismiss_datatransferjob handler (app.py lines 1532-1547) acting
on a table of job rows keyed by id: abort(404) when the job_id form
field is missing or the row is not found; otherwise the job state is set
to HIDDEN and OK is returned.  The handler reads the requesting user only
through the login_required decorator: the requester argument is unused,
exactly as in the source, which performs no ownership check.
The helper dismiss_entry is the per-row update the commit performs. -/
def dismiss_entry (jid : Nat) (q : Nat × JobRow) : Nat × JobRow :=
  if q.fst == jid then (q.fst, { q.snd with state := DataTransferJobState.HIDDEN })
  else q

/-- See dismiss_entry: the handler itself (app.py lines 1532-1547). -/
def dismiss_datatransferjob (_r : Requester) (jobIdForm : Option Nat)
    (db : List (Nat × JobRow)) : HandlerResponse × List (Nat × JobRow) :=
  match jobIdForm with
  | none => (HandlerResponse.notFound, db)
  | some jid =>
    match db.find? (fun p => p.fst == jid) with
    | none => (HandlerResponse.notFound, db)
    | some _ => (HandlerResponse.ok, db.map (dismiss_entry jid))

/-! Polling loops of the adapters.  Each loop is embedded as a function
of an observation sequence: obs i is what the i-th call of the polled
backend API returns.  A fuel argument counts loop iterations; returning
none means the loop is still running after that many iterations. -/

/-- The loop of docker_wait_for_ip (app.py lines 2167-2171): repeat
docker_get_ip until it is truthy, sleeping 1s between calls.  There is
no timeout test in the loop; the only exit is a non-empty address.
The value after n iterations starting at observation index i. -/
def docker_wait_for_ip_steps (obs : Nat → String) : Nat → Nat → Option String
  | _, 0 => none
  | i, Nat.succ n =>
    if obs i = "" then docker_wait_for_ip_steps obs (i + 1) n
    else some (obs i)

/-- The loop of libvirt_wait_for_ip (app.py lines 2280-2285): repeat
libvirt_get_vm_ip until it returns an address, sleeping 1s between
calls.  There is no timeout test in the loop; the only exit is an
observed address.  The value after n iterations starting at
observation index i. -/
def libvirt_wait_for_ip_steps (obs : Nat → Option String) : Nat → Nat → Option String
  | _, 0 => none
  | i, Nat.succ n =>
    match obs i with
    | some ip => some ip
    | none => libvirt_wait_for_ip_steps obs (i + 1) n

/-- One address entry of an openstack server as read by
openstack_wait_for_vm_ip (app.py lines 1866-1870): the value of the
OS-EXT-IPS type key and the addr string. -/
structure OsAddress where
  ipsType : String
  addr : String
deriving DecidableEq

/-- The body of one iteration of openstack_wait_for_vm_ip (app.py lines
1868-1870): return the addr of the first address whose type is fixed. -/
def openstack_find_fixed (addrs : List OsAddress) : Option String :=
  (addrs.find? (fun a => a.ipsType == "fixed")).map (fun a => a.addr)

/-- The loop of openstack_wait_for_vm_ip (app.py lines 1856-1876),
with time made explicit: iteration i runs while the elapsed time 5 * i
is below the timeout (the loop sleeps 5s per iteration); when the while
condition fails the function raises TimeoutError, modelled as an error
value.  The fuel argument is only there to make the recursion
structural; it exceeds the possible number of iterations whenever it is
more than the timeout. -/
def openstack_wait_go (obs : Nat → List OsAddress) (timeout : Nat) :
    Nat → Nat → Except String String
  | _, 0 => Except.error "timeout"
  | i, Nat.succ fuel =>
    if 5 * i < timeout then
      match openstack_find_fixed (obs i) with
      | some a => Except.ok a
      | none => openstack_wait_go obs timeout (i + 1) fuel
    else
      Except.error "timeout"

/-- openstack_wait_for_vm_ip (app.py lines 1855-1876) as a function of
the observation sequence and the timeout. -/
def openstack_wait_for_vm_ip (obs : Nat → List OsAddress) (timeout : Nat) :
    Except String String :=
  openstack_wait_go obs timeout 0 (timeout + 1)

/-- The tail of the libvirt_start_vm task around the ip wait (app.py
lines 2385-2390): when the wait loop exits with an ip after at most
fuel iterations, the row gets that ip and state READY; while the loop
has not exited, no write to the row has happened, which the value none
represents.  No exception is raised inside the wait loop, so the
exception handler of the task (lines 2391-2394) cannot fire during it. -/
def libvirt_start_vm_poll_outcome (obs : Nat → Option String) (fuel : Nat)
    (m : MachineRow) : Option MachineRow :=
  match libvirt_wait_for_ip_steps obs 0 fuel with
  | some ip => some { m with ip := ip, state := MachineState.READY }
  | none => none

/-! Teardown adapters.  Each backend call that the source wraps in a
try block is passed in as an Except value: ok for a call that returned,
error for a call that raised. -/

/-- libvirt_stop_vm (app.py lines 2397-2427): the whole teardown
(connect, destroy the domain, delete the volumes, undefine) sits in a
try block whose except clause only logs; the row is then set to DELETED
unconditionally, on both the success and the failure path. -/
def libvirt_stop_vm (teardown : Except Unit Unit) (m : MachineRow) : MachineRow :=
  match teardown with
  | Except.ok _ => { m with state := MachineState.DELETED }
  | Except.error _ => { m with state := MachineState.DELETED }

/-- docker_stop_container (app.py lines 2174-2197): locating and
stopping the container sits in a try block whose except clauses only
log; the row is then set to DELETED unconditionally. -/
def docker_stop_container (teardown : Except Unit Unit) (m : MachineRow) : MachineRow :=
  match teardown with
  | Except.ok _ => { m with state := MachineState.DELETED }
  | Except.error _ => { m with state := MachineState.DELETED }

/-- openstack_stop_vm (app.py lines 2091-2127): reading the template
and provider rows and building the environment (modelled by setup) sits
under the outer try, whose except sets FAILED; the server delete
subprocess call sits in an inner try whose except only logs, after
which the row is set to DELETED. -/
def openstack_stop_vm (setup : Except Unit Unit) (serverDelete : Except Unit Unit)
    (m : MachineRow) : MachineRow :=
  match setup with
  | Except.error _ => { m with state := MachineState.FAILED }
  | Except.ok _ =>
    match serverDelete with
    | Except.ok _ => { m with state := MachineState.DELETED }
    | Except.error _ => { m with state := MachineState.DELETED }

/-! Transition system of the writes the orchestrator performs on one
Machine row, for the reachability invariants.  Each event is one commit
that some handler or background task performs on the row. -/

/-- One committed write to a Machine row.  The success events carry the
address the adapter obtained from its wait loop; the docker failure
handler (app.py lines 2252-2253) resets ip to the empty string, the
libvirt and openstack failure handlers (lines 2391-2394 and 2070-2073)
leave ip as it was. -/
inductive MEvent where
  | dockerSuccess (ip : String)
  | libvirtSuccess (ip : String)
  | openstackSuccess (addr : String)
  | dockerStartFailure
  | libvirtStartFailure
  | openstackStartFailure
  | stopRequested
  | teardownDeleted
  | openstackTeardownFailed
  | reconcile
deriving DecidableEq

/-- The effect of one committed write on the row, read off the source:
docker_start_container lines 2237-2254, libvirt_start_vm lines
2388-2394, openstack_start_vm lines 2064-2073, stop_machine lines
1821-1822, the three stop adapters, and clean_up_db lines 2583-2587. -/
def stepMachine (m : MachineRow) (e : MEvent) : MachineRow :=
  match e with
  | MEvent.dockerSuccess ip => { m with ip := ip, state := MachineState.READY }
  | MEvent.libvirtSuccess ip => { m with ip := ip, state := MachineState.READY }
  | MEvent.openstackSuccess addr => { m with ip := addr, state := MachineState.READY }
  | MEvent.dockerStartFailure => { m with ip := "", state := MachineState.FAILED }
  | MEvent.libvirtStartFailure => { m with state := MachineState.FAILED }
  | MEvent.openstackStartFailure => { m with state := MachineState.FAILED }
  | MEvent.stopRequested => { m with state := MachineState.DELETING }
  | MEvent.teardownDeleted => { m with state := MachineState.DELETED }
  | MEvent.openstackTeardownFailed => { m with state := MachineState.FAILED }
  | MEvent.reconcile =>
    if m.state = MachineState.PROVISIONING then
      { m with state := MachineState.FAILED }
    else m

/-- The address carried by a success event is non-empty.  For docker
and libvirt this holds by construction of the wait loops, which only
exit on a truthy address; for openstack it is an assumption on the
backend, since line 2064 stores whatever addr string the API reported
for the fixed address. -/
def eventOk : MEvent → Bool
  | MEvent.dockerSuccess ip => ip != ""
  | MEvent.libvirtSuccess ip => ip != ""
  | MEvent.openstackSuccess addr => addr != ""
  | _ => true

/-- The row created by new_machine followed by a sequence of committed
orchestrator writes. -/
def runMachine (name : String) (owner : Nat) (evs : List MEvent) : MachineRow :=
  evs.foldl stepMachine (newMachineRow name owner)

/-! Helper lemmas. -/

/-- The libvirt ip wait loop makes no progress when every observation is
empty: after any number of iterations it has still not returned. -/
lemma libvirt_wait_none : ∀ (n i : Nat),
    libvirt_wait_for_ip_steps (fun _ => none) i n = none := by
  intro n
  induction n with
  | zero => intro i; rfl
  | succ k ih =>
      intro i
      simpa [libvirt_wait_for_ip_steps] using ih (i + 1)

/-- The docker ip wait loop makes no progress when every observation is
the empty string: after any number of iterations it has still not
returned. -/
lemma docker_wait_none : ∀ (n i : Nat),
    docker_wait_for_ip_steps (fun _ => "") i n = none := by
  intro n
  induction n with
  | zero => intro i; rfl
  | succ k ih =>
      intro i
      simpa [docker_wait_for_ip_steps] using ih (i + 1)

/-- dismiss_entry never changes the key of a row. -/
lemma dismiss_entry_fst (jid : Nat) (q : Nat × JobRow) :
    (dismiss_entry jid q).fst = q.fst := by
  unfold dismiss_entry
  split <;> rfl

/-- Looking a key up after the dismiss update finds the updated image of
the row the lookup found before the update. -/
lemma find?_map_dismiss (jid : Nat) (db : List (Nat × JobRow)) :
    (db.map (dismiss_entry jid)).find? (fun q => q.fst == jid)
      = (db.find? (fun q => q.fst == jid)).map (dismiss_entry jid) := by
  induction db with
  | nil => rfl
  | cons q t ih =>
      cases hbe : (q.fst == jid) with
      | true => simp [List.find?, dismiss_entry_fst, hbe]
      | false => simp [List.find?, dismiss_entry_fst, hbe, ih]

/-- A single committed orchestrator write preserves the property that a
READY row has a non-empty ip, provided the write carries a non-empty
address when it is an adapter success. -/
lemma stepMachine_ready_ip (m : MachineRow) (e : MEvent)
    (hok : eventOk e = true)
    (hm : m.state = MachineState.READY → ¬ m.ip = "") :
    (stepMachine m e).state = MachineState.READY →
      ¬ (stepMachine m e).ip = "" := by
  cases e with
  | dockerSuccess ip =>
      intro _
      simp only [eventOk, bne_iff_ne, ne_eq] at hok
      simpa [stepMachine] using hok
  | libvirtSuccess ip =>
      intro _
      simp only [eventOk, bne_iff_ne, ne_eq] at hok
      simpa [stepMachine] using hok
  | openstackSuccess addr =>
      intro _
      simp only [eventOk, bne_iff_ne, ne_eq] at hok
      simpa [stepMachine] using hok
  | dockerStartFailure => intro h; simp [stepMachine] at h
  | libvirtStartFailure => intro h; simp [stepMachine] at h
  | openstackStartFailure => intro h; simp [stepMachine] at h
  | stopRequested => intro h; simp [stepMachine] at h
  | teardownDeleted => intro h; simp [stepMachine] at h
  | openstackTeardownFailed => intro h; simp [stepMachine] at h
  | reconcile =>
      by_cases hp : m.state = MachineState.PROVISIONING
      · intro h
        simp [stepMachine, hp] at h
      · intro h
        simp only [stepMachine, if_neg hp] at h ⊢
        exact hm h

/-- Folding committed writes over a row preserves the READY-implies-ip
property when every write is well formed. -/
lemma foldl_ready_ip : ∀ (evs : List MEvent) (m : MachineRow),
    (∀ e ∈ evs, eventOk e = true) →
    (m.state = MachineState.READY → ¬ m.ip = "") →
    ((evs.foldl stepMachine m).state = MachineState.READY →
      ¬ (evs.foldl stepMachine m).ip = "") := by
  intro evs
  induction evs with
  | nil => intro m _ hm; simpa using hm
  | cons e t ih =>
      intro m hall hm
      simp only [List.foldl_cons]
      exact ih (stepMachine m e)
        (fun x hx => hall x (List.mem_cons_of_mem _ hx))
        (stepMachine_ready_ip m e (hall e (List.mem_cons_self _ _)) hm)

/-! Theorems settling the claims. -/

/-- Claim C1, counterexample: a stop request by the owner on a machine
in PROVISIONING is accepted and moves the row to DELETING, although the
diagram of section 4.1 has no edge from PROVISIONING to DELETING.  The
membership test in stop_machine only logs a warning and the handler
proceeds. -/
theorem stop_from_provisioning_enters_deleting :
    stop_machine_row { id := 7, isAdmin := false }
        { name := "m", ip := "", state := MachineState.PROVISIONING, ownerId := 7 }
      = Except.ok
          { name := "m", ip := "", state := MachineState.DELETING, ownerId := 7 }
    ∧ specEdge MachineState.PROVISIONING MachineState.DELETING = false :=
  ⟨rfl, rfl⟩

/-- Claim C1, amended: an authorized stop request (admin or owner) sets
the row to DELETING from every current state; in particular DELETING is
also entered from PROVISIONING, DELETING and DELETED, the handler only
logging a warning in those cases. -/
theorem stop_machine_sets_deleting_from_any_state (r : Requester) (m : MachineRow)
    (h : r.isAdmin = true ∨ r.id = m.ownerId) :
    stop_machine_row r m = Except.ok { m with state := MachineState.DELETING } := by
  unfold stop_machine_row
  rw [if_neg]
  rintro ⟨h1, h2⟩
  cases h with
  | inl ha => exact h1 ha
  | inr hb => exact h2 hb

/-- Claim C1, witness for the amended theorem at a concrete machine in
DELETED state stopped by its owner. -/
theorem stop_machine_sets_deleting_witness :
    stop_machine_row { id := 3, isAdmin := false }
        { name := "m", ip := "10.0.0.2", state := MachineState.DELETED, ownerId := 3 }
      = Except.ok
          { name := "m", ip := "10.0.0.2", state := MachineState.DELETING, ownerId := 3 } :=
  stop_machine_sets_deleting_from_any_state
    { id := 3, isAdmin := false }
    { name := "m", ip := "10.0.0.2", state := MachineState.DELETED, ownerId := 3 }
    (Or.inr rfl)

/-- Claim C2, counterexample: for a libvirt machine whose ip poll never
observes an address, the task does not terminate at all: after any
number of loop iterations no state has been written, so the machine is
never set to FAILED, contradicting the claim that the poll stops at a
bounded timeout with a FAILED outcome. -/
theorem libvirt_ip_poll_never_exits :
    ¬ ∃ (n : Nat) (m2 : MachineRow),
        libvirt_start_vm_poll_outcome (fun _ => none) n
          (newMachineRow "m" 7) = some m2 := by
  rintro ⟨n, m2, h⟩
  unfold libvirt_start_vm_poll_outcome at h
  rw [libvirt_wait_none n 0] at h
  exact Option.noConfusion h

/-- Claim C2, amended: the openstack polls are bounded by a timeout and
report a timeout failure, but the docker and libvirt ip polls have no
timeout at all: with observations that never contain an address they are
still running after any number of iterations, and the machine row is
never written. -/
theorem ip_poll_timeout_behavior :
    (∀ (n i : Nat), libvirt_wait_for_ip_steps (fun _ => none) i n = none) ∧
    (∀ (n i : Nat), docker_wait_for_ip_steps (fun _ => "") i n = none) ∧
    openstack_wait_for_vm_ip (fun _ => []) 300 = Except.error "timeout" := by
  exact ⟨libvirt_wait_none, docker_wait_none, rfl⟩

/-- Claim C3, counterexample: a libvirt teardown whose backend calls
raise is still committed as DELETED, not FAILED. -/
theorem libvirt_teardown_failure_marks_deleted :
    (libvirt_stop_vm (Except.error ())
        { name := "m", ip := "10.0.0.2", state := MachineState.DELETING, ownerId := 7 }).state
      = MachineState.DELETED
    ∧ MachineState.DELETED ≠ MachineState.FAILED := by
  decide

/-- Claim C3, amended: in all three backends a failing teardown call is
caught, logged and ignored, and the row is set to DELETED regardless;
only openstack_stop_vm can set FAILED, and only when an error occurs
outside the guarded server delete call. -/
theorem teardown_failure_still_marks_deleted (t : Except Unit Unit) (m : MachineRow) :
    (libvirt_stop_vm t m).state = MachineState.DELETED ∧
    (docker_stop_container t m).state = MachineState.DELETED ∧
    (openstack_stop_vm (Except.ok ()) t m).state = MachineState.DELETED ∧
    (openstack_stop_vm (Except.error ()) t m).state = MachineState.FAILED := by
  cases t <;> simp [libvirt_stop_vm, docker_stop_container, openstack_stop_vm]

/-- Claim C4: the startup recovery pass maps every PROVISIONING row to
the same row with state FAILED, leaves every DELETING row unchanged, and
a freshly created row (PROVISIONING) comes out of a reconcile as FAILED,
never PROVISIONING. -/
theorem clean_up_db_machine_spec (ms : List MachineRow) (m : MachineRow)
    (name : String) (owner : Nat) :
    (m ∈ ms → m.state = MachineState.PROVISIONING →
       { m with state := MachineState.FAILED } ∈ clean_up_db_machines ms) ∧
    (m ∈ ms → m.state = MachineState.DELETING → m ∈ clean_up_db_machines ms) ∧
    ((clean_up_db_machine m).state =
       if m.state = MachineState.PROVISIONING then MachineState.FAILED else m.state) ∧
    (clean_up_db_machine (newMachineRow name owner)).state = MachineState.FAILED := by
  refine ⟨?_, ?_, ?_, ?_⟩
  · intro hmem hprov
    have hcl : clean_up_db_machine m = { m with state := MachineState.FAILED } := by
      simp [clean_up_db_machine, hprov]
    rw [← hcl]
    exact List.mem_map_of_mem clean_up_db_machine hmem
  · intro hmem hdel
    have hne : m.state ≠ MachineState.PROVISIONING := by
      rw [hdel]
      decide
    have hcl : clean_up_db_machine m = m := by
      simp [clean_up_db_machine, hne]
    rw [← hcl]
    exact List.mem_map_of_mem clean_up_db_machine hmem
  · by_cases h : m.state = MachineState.PROVISIONING <;>
      simp [clean_up_db_machine, h]
  · simp [clean_up_db_machine, newMachineRow]

/-- Claim C4, witness: a DELETING row survives the recovery pass
unchanged and a fresh PROVISIONING row comes out FAILED. -/
theorem clean_up_db_machine_spec_witness :
    { name := "m", ip := "10.0.0.2", state := MachineState.DELETING, ownerId := 0 }
      ∈ clean_up_db_machines
        [{ name := "m", ip := "10.0.0.2", state := MachineState.DELETING, ownerId := 0 }] :=
  (clean_up_db_machine_spec
      [{ name := "m", ip := "10.0.0.2", state := MachineState.DELETING, ownerId := 0 }]
      { name := "m", ip := "10.0.0.2", state := MachineState.DELETING, ownerId := 0 }
      "x" 0).2.1 (List.mem_singleton_self _) rfl

/-- Claim C5: a stop request by a requester who is neither admin nor the
owner of the machine aborts with Forbidden and leaves the whole table,
in particular the state of the machine, unchanged. -/
theorem stop_machine_forbidden_unchanged (r : Requester) (mid : Nat)
    (db : List (Nat × MachineRow)) (m : MachineRow)
    (hadmin : r.isAdmin = false) (howner : ¬ r.id = m.ownerId)
    (hfind : db.find? (fun p => p.fst == mid) = some (mid, m)) :
    stop_machine r (some mid) db = (HandlerResponse.forbidden, db) := by
  have hrow : stop_machine_row r m = Except.error HandlerResponse.forbidden := by
    unfold stop_machine_row
    rw [if_pos ⟨by simp [hadmin], howner⟩]
  simp [stop_machine, hfind, hrow]

/-- Claim C5, witness: a concrete non-owner, non-admin requester is
refused and the table is unchanged. -/
theorem stop_machine_forbidden_witness :
    stop_machine { id := 2, isAdmin := false } (some 1)
        [(1, { name := "m", ip := "10.0.0.2", state := MachineState.READY, ownerId := 1 })]
      = (HandlerResponse.forbidden,
         [(1, { name := "m", ip := "10.0.0.2", state := MachineState.READY, ownerId := 1 })]) :=
  stop_machine_forbidden_unchanged { id := 2, isAdmin := false } 1
    [(1, { name := "m", ip := "10.0.0.2", state := MachineState.READY, ownerId := 1 })]
    { name := "m", ip := "10.0.0.2", state := MachineState.READY, ownerId := 1 }
    rfl (by decide) (by decide)

/-- Claim C6: the docker adapter computes the cpu limit as the period
100000 times the cpu_limit_cores of the template and the memory limit
as the gb value times 1024 followed by the suffix m; at cores 4 and
gb 16 this gives quota 400000 over period 100000 and the string 16384m. -/
theorem docker_limits_spec :
    (∀ cores : Nat, docker_cpu_quota cores = 100000 * cores) ∧
    docker_cpu_period = 100000 ∧
    docker_cpu_quota 4 = 400000 ∧
    docker_mem_limit 16 = "16384m" := by
  refine ⟨fun cores => rfl, rfl, rfl, ?_⟩
  decide

/-- Claim C7, counterexample: a dismiss request by user 2 on a RUNNING
job owned by user 1 is accepted and sets the job to HIDDEN; the handler
checks only that the job exists, not who owns it, so the request is not
rejected and the state does change. -/
theorem dismiss_by_non_owner_accepted :
    (dismiss_datatransferjob { id := 2, isAdmin := false } (some 1)
        [(1, { state := DataTransferJobState.RUNNING, userId := 1,
               finish_date := 0, finish_time := none })]).fst = HandlerResponse.ok
    ∧ (dismiss_datatransferjob { id := 2, isAdmin := false } (some 1)
        [(1, { state := DataTransferJobState.RUNNING, userId := 1,
               finish_date := 0, finish_time := none })]).snd
      = [(1, { state := DataTransferJobState.HIDDEN, userId := 1,
               finish_date := 0, finish_time := none })]
    ∧ (2 : Nat) ≠ 1 := by
  decide

/-- Claim C7, amended: a dismiss request naming an existing job is
accepted for every authenticated requester, owner or not, and sets the
job to HIDDEN unconditionally; no ownership check is performed. -/
theorem dismiss_sets_hidden_for_any_requester (r : Requester) (jid : Nat)
    (db : List (Nat × JobRow)) (p : Nat × JobRow)
    (hfind : db.find? (fun q => q.fst == jid) = some p) :
    (dismiss_datatransferjob r (some jid) db).fst = HandlerResponse.ok ∧
    ((dismiss_datatransferjob r (some jid) db).snd.find?
        (fun q => q.fst == jid)).map (fun q => q.snd.state)
      = some DataTransferJobState.HIDDEN := by
  constructor
  · simp [dismiss_datatransferjob, hfind]
  · have h1 : (dismiss_datatransferjob r (some jid) db).snd
        = db.map (dismiss_entry jid) := by
      simp [dismiss_datatransferjob, hfind]
    have hp : (p.fst == jid) = true := by
      have h2 := List.find?_some hfind
      simpa using h2
    rw [h1, find?_map_dismiss, hfind]
    simp [dismiss_entry, hp]

/-- Claim C7, witness for the amended theorem: a requester distinct from
the owner of a concrete DONE job dismisses it to HIDDEN. -/
theorem dismiss_sets_hidden_witness :
    (dismiss_datatransferjob { id := 5, isAdmin := false } (some 3)
        [(3, { state := DataTransferJobState.DONE, userId := 9,
               finish_date := 0, finish_time := none })]).fst = HandlerResponse.ok ∧
    ((dismiss_datatransferjob { id := 5, isAdmin := false } (some 3)
        [(3, { state := DataTransferJobState.DONE, userId := 9,
               finish_date := 0, finish_time := none })]).snd.find?
        (fun q => q.fst == 3)).map (fun q => q.snd.state)
      = some DataTransferJobState.HIDDEN :=
  dismiss_sets_hidden_for_any_requester { id := 5, isAdmin := false } 3
    [(3, { state := DataTransferJobState.DONE, userId := 9,
           finish_date := 0, finish_time := none })]
    (3, { state := DataTransferJobState.DONE, userId := 9,
          finish_date := 0, finish_time := none })
    (by decide)

/-- Claim C8: evaluation of the copy task at the failing input.  A job
created at time 0 whose copy finishes at time 5 ends with the correct
terminal state in both outcomes, but the mapped column finish_date still
holds the creation time 0: the task assigns the unmapped attribute
finish_time instead of the column finish_date, so the completion time is
never persisted. -/
theorem start_data_transfer_finish_date_stale :
    ((start_data_transfer 5 true (newJobRow 0 1)).state
        = DataTransferJobState.DONE ∧
     (start_data_transfer 5 true (newJobRow 0 1)).finish_date = 0 ∧
     (start_data_transfer 5 true (newJobRow 0 1)).finish_time = some 5) ∧
    ((start_data_transfer 5 false (newJobRow 0 1)).state
        = DataTransferJobState.FAILED ∧
     (start_data_transfer 5 false (newJobRow 0 1)).finish_date = 0) ∧
    (0 : Nat) ≠ 5 := by
  decide

/-- Claim C9, counterexample: after a create immediately followed by the
docker failure write, the row is reachable with state FAILED and empty
ip, contradicting the claim that every machine outside PROVISIONING has
a non-empty ip. -/
theorem failed_machine_with_empty_ip_reachable :
    (runMachine "m" 7 [MEvent.dockerStartFailure]).state = MachineState.FAILED
    ∧ (runMachine "m" 7 [MEvent.dockerStartFailure]).ip = "" := by
  decide

/-- Claim C9, amended: the ip can be empty outside PROVISIONING (in
FAILED after a failed create, and in DELETING or DELETED reached from
such rows), but every reachable READY row has a non-empty ip, given that
each adapter success write carries a non-empty address; for docker and
libvirt this is forced by their wait loops, for openstack it is an
assumption on the backend. -/
theorem ready_machine_has_ip (name : String) (owner : Nat) (evs : List MEvent)
    (hall : ∀ e ∈ evs, eventOk e = true)
    (hready : (runMachine name owner evs).state = MachineState.READY) :
    ¬ (runMachine name owner evs).ip = "" := by
  refine foldl_ready_ip evs (newMachineRow name owner) hall ?_ hready
  intro h
  simp [newMachineRow] at h

/-- Claim C9, witness for the amended theorem: one successful docker
create yields a READY row with the non-empty observed address. -/
theorem ready_machine_has_ip_witness :
    ¬ (runMachine "m" 7 [MEvent.dockerSuccess "10.0.0.2"]).ip = "" :=
  ready_machine_has_ip "m" 7 [MEvent.dockerSuccess "10.0.0.2"]
    (by decide) (by decide)

/-- Claim C10: the startup recovery pass also terminates every RUNNING
data transfer job: a RUNNING job is set to FAILED, every other job is
untouched, and no job comes out of the pass still RUNNING. -/
theorem clean_up_db_job_spec (j : JobRow) :
    (clean_up_db_job j).state ≠ DataTransferJobState.RUNNING ∧
    (j.state = DataTransferJobState.RUNNING →
       (clean_up_db_job j).state = DataTransferJobState.FAILED) ∧
    (j.state ≠ DataTransferJobState.RUNNING → clean_up_db_job j = j) := by
  by_cases h : j.state = DataTransferJobState.RUNNING <;>
    simp [clean_up_db_job, h]

/-- Claim C10, witness: a concrete RUNNING job is failed by the pass. -/
theorem clean_up_db_job_spec_witness :
    (clean_up_db_job
        { state := DataTransferJobState.RUNNING, userId := 1,
          finish_date := 0, finish_time := none }).state
      = DataTransferJobState.FAILED :=
  (clean_up_db_job_spec
      { state := DataTransferJobState.RUNNING, userId := 1,
        finish_date := 0, finish_time := none }).2.1 rfl

end Ada2
